import Mathlib

/-
Verification of the wolfinit init/supervisor (mattmoor/wolfinit) against its
natural-language specification.  The Go sources are embedded shallowly: the
pure decision logic of `main` (argument resolution, run-as identity
resolution, PATH defaulting, configuration loading), the `shutdown`
sequencer, the mount sequence, and small labelled-transition systems for the
two concurrent pieces (the zombie-reaper goroutine racing the supervisor's
wait, and the one-shot signal-forwarding goroutine).

The embedding follows the most feature-complete variant of the repository
(src/unnamed/part_000); where a claim also cites the earlier variant
(src/main.go) that variant is embedded separately and named accordingly.
-/

namespace Wolfinit

/-- Default search path, `defaultPath` in the source (part_000 line 46). -/
def defaultPath : String := "/sbin:/usr/sbin:/bin:/usr/bin:/usr/local/sbin:/usr/local/bin"

/-- Entrypoint record of the image configuration (part_000 lines 275-278). -/
structure ImageEntrypoint where
  command : String
deriving DecidableEq, Repr

/-- User record of the image configuration (part_000 lines 287-294).
The `uid` and `gid` fields are `uint32` in the source; they are embedded as
naturals (a decoded `uint32` value is a natural below 2^32). -/
structure User where
  userName : String
  uid : Nat
  gid : Nat
deriving DecidableEq, Repr

/-- Accounts record of the image configuration (part_000 lines 280-285). -/
structure ImageAccounts where
  runAs : String
  users : List User
deriving DecidableEq, Repr

/-- Image configuration (part_000 lines 296-317).  The Go `Environment` field
is a `map[string]string` that may be `nil`; it is embedded as an optional
association list with unique keys (`none` is Go's nil map). -/
structure ImageConfiguration where
  entrypoint : ImageEntrypoint
  cmd : String
  workDir : String
  accounts : ImageAccounts
  environment : Option (List (String × String))
deriving DecidableEq, Repr

/-! ### Go map lookup on the association-list embedding -/

/-- Lookup in the association-list embedding of a Go string map. -/
def envLookup (k : String) : List (String × String) → Option String
  | [] => none
  | kv :: rest => if kv.1 = k then some kv.2 else envLookup k rest

/-! ### Configuration loading (part_000 lines 82-97) -/

/-- PATH defaulting after parse (part_000 lines 91-97): a nil environment map
becomes an empty map, and a missing PATH entry is set to `defaultPath`. -/
def ensurePath (environment : Option (List (String × String))) : List (String × String) :=
  let m := environment.getD []
  match envLookup "PATH" m with
  | some _ => m
  | none => m ++ [("PATH", defaultPath)]

/-- Outcome of the configuration-loading prefix of `main`. -/
inductive LoadOutcome where
  | panicAtMarshal
  | loaded (ic : ImageConfiguration)
deriving DecidableEq

/-- Configuration loading (part_000 lines 82-97).  `readResult` is the result
of `os.ReadFile("/etc/apko.json")`: `none` is a read error, in which case the
code only logs (`log.Printf`) and the byte slice `b` stays nil (embedded as
the empty string).  `parse` is `json.Unmarshal` specialised to
`ImageConfiguration`, returning `none` on a decode error, which the code
turns into `log.Panicf` (line 88). -/
def loadConfig (parse : String → Option ImageConfiguration)
    (readResult : Option String) : LoadOutcome :=
  let b := match readResult with
    | some contents => contents
    | none => ""
  match parse b with
  | none => LoadOutcome.panicAtMarshal
  | some ic => LoadOutcome.loaded { ic with environment := some (ensurePath ic.environment) }

/-! ### strconv.Atoi (Go standard library, as called at part_000 line 216) -/

/-- Accumulate a decimal value over the remaining characters; any non-digit
character is a parse error. -/
def digitsValAux : Nat → List Char → Option Nat
  | acc, [] => some acc
  | acc, c :: cs => if c.isDigit then digitsValAux (10 * acc + (c.toNat - 48)) cs else none

/-- Range check of Go's 64-bit `int`: `strconv.Atoi` reports an error for a
value outside [-2^63, 2^63 - 1]. -/
def int64Range (v : Int) : Option Int :=
  if v < -9223372036854775808 ∨ 9223372036854775807 < v then none else some v

/-- Model of Go `strconv.Atoi`: an optional single leading sign followed by
one or more decimal digits, with the 64-bit range check; anything else is an
error (`none`). -/
def atoi (s : String) : Option Int :=
  match s.toList with
  | [] => none
  | '-' :: cs =>
    if cs.isEmpty then none
    else (digitsValAux 0 cs).bind fun n => int64Range (-(n : Int))
  | '+' :: cs =>
    if cs.isEmpty then none
    else (digitsValAux 0 cs).bind fun n => int64Range (n : Int)
  | cs => (digitsValAux 0 cs).bind fun n => int64Range (n : Int)

/-! ### Run-as identity resolution (part_000 lines 200-227) -/

/-- Match condition of the user-search loop (part_000 line 207):
`acct.UserName == runAs || fmt.Sprint(acct.UID) == runAs`. -/
def runAsPred (runAs : String) (u : User) : Bool :=
  u.userName == runAs || toString u.uid == runAs

/-- Run-as identity resolution (part_000 lines 200-227).  `uid` and `gid`
start at 0; if `runAs` is non-empty the first matching user record sets them;
afterwards, if `uid` is still 0 and `runAs` is not the literal "root", the
code parses `runAs` with `strconv.Atoi` and uses the result as `uid`
(`log.Panicf` on a parse error, embedded as `none`).  The two arms of the
`match` specialise the single Go `if uid == 0 && runAs != "root"` to the
found/not-found cases. -/
def resolveIdentity (a : ImageAccounts) : Option (Int × Int) :=
  if a.runAs = "" then some (0, 0)
  else
    match a.users.find? (runAsPred a.runAs) with
    | some u =>
      if (u.uid : Int) = 0 ∧ a.runAs ≠ "root" then
        match atoi a.runAs with
        | some n => some (n, (u.gid : Int))
        | none => none
      else some ((u.uid : Int), (u.gid : Int))
    | none =>
      if a.runAs ≠ "root" then
        match atoi a.runAs with
        | some n => some (n, 0)
        | none => none
      else some (0, 0)

/-- Modelled from the spec: the claim's reference resolution, amended only
where the code's behaviour forces it — on a match whose uid is 0 with a
`runAs` other than the literal "root", the code re-parses `runAs` as a
decimal integer for the uid (keeping the matched gid) and aborts fatally on a
parse failure, instead of using the matched uid directly. -/
def resolveIdentityAmendedSpec (a : ImageAccounts) : Option (Int × Int) :=
  if a.runAs = "" then some (0, 0)
  else
    match a.users.find? (runAsPred a.runAs) with
    | some u =>
      if u.uid ≠ 0 then some ((u.uid : Int), (u.gid : Int))
      else if a.runAs = "root" then some (0, (u.gid : Int))
      else
        match atoi a.runAs with
        | some n => some (n, (u.gid : Int))
        | none => none
    | none =>
      if a.runAs = "root" then some (0, 0)
      else
        match atoi a.runAs with
        | some n => some (n, 0)
        | none => none

/-- The credential installed on the child (part_000 lines 222-227):
`Uid: uint32(uid), Gid: uint32(gid)`.  Go's conversion of a 64-bit `int` to
`uint32` reduces modulo 2^32. -/
def mkCredential (idPair : Int × Int) : Nat × Nat :=
  ((idPair.1 % 4294967296).toNat, (idPair.2 % 4294967296).toNat)

/-! ### Argument-vector resolution and launch (part_000 lines 168-184) -/

/-- Argument-vector resolution (part_000 lines 168-183).  `split` is
`shlex.Split`; the code calls it only on non-empty strings, appending the
entrypoint tokens and then the cmd tokens, and turns a split error into
`log.Panicf` (embedded as `Except.error`). -/
def resolveArgs (split : String → Except String (List String))
    (epCommand cmdStr : String) : Except String (List String) :=
  match (if epCommand = "" then Except.ok [] else split epCommand) with
  | Except.error e => Except.error e
  | Except.ok a1 =>
    match (if cmdStr = "" then Except.ok [] else split cmdStr) with
    | Except.error e => Except.error e
    | Except.ok a2 => Except.ok (a1 ++ a2)

/-- Outcome of building the child command.  `splitPanic` is the `log.Panicf`
on a `shlex.Split` error (lines 173, 180); `emptyArgsPanic` is the runtime
index-out-of-range panic at `args[0]` (line 184) when the vector is empty;
`started` carries the non-empty argument vector handed to
`exec.CommandContext`. -/
inductive LaunchResult where
  | splitPanic
  | emptyArgsPanic
  | started (argv : List String)
deriving DecidableEq

/-- The launch path of `main` from argument resolution to
`exec.CommandContext(ctx, args[0], args[1:]...)` (part_000 lines 168-184). -/
def launchWorkload (split : String → Except String (List String))
    (epCommand cmdStr : String) : LaunchResult :=
  match resolveArgs split epCommand cmdStr with
  | Except.error _ => LaunchResult.splitPanic
  | Except.ok [] => LaunchResult.emptyArgsPanic
  | Except.ok (a :: rest) => LaunchResult.started (a :: rest)

/-- A concrete lexical splitter used to instantiate hypotheses at witnesses:
the empty string yields no tokens, any other string is one token. -/
def demoSplit (s : String) : Except String (List String) :=
  if s = "" then Except.ok [] else Except.ok [s]

/-! ### Shutdown sequencer (part_000 lines 31-44) -/

/-- Outcome of `shutdown`: `log.Fatalf` after the first write error (line 34),
`log.Fatalf` after the second write error (line 39), or the final `select`
that blocks forever (line 43). -/
inductive ShutdownOutcome where
  | fatalSync
  | fatalPoweroff
  | blockForever
deriving DecidableEq

/-- The `shutdown` function (part_000 lines 31-44).  `syncOk` and
`poweroffOk` say whether the two `os.WriteFile("/proc/sysrq-trigger", ...)`
calls succeed; the result lists the payloads written to the system-request
interface, in order, together with how the function ends. -/
def shutdown (syncOk poweroffOk : Bool) : List String × ShutdownOutcome :=
  if syncOk then
    if poweroffOk then (["s\n", "o\n"], ShutdownOutcome.blockForever)
    else (["s\n", "o\n"], ShutdownOutcome.fatalPoweroff)
  else (["s\n"], ShutdownOutcome.fatalSync)

/-! ### Boot-environment mount sequence (part_000 lines 55-80; main.go 44-46) -/

/-- The sites of the mount sequence that can log a failure
(part_000 lines 55-80): the five `mount.Mount` calls and the `os.Mkdir`
guarding the sysfs mount. -/
inductive MountSite where
  | procM
  | devM
  | mkdirSys
  | sysM
  | cgroupM
  | tmpM
deriving DecidableEq, Repr

/-- What the mount sequence produced: the failure sites logged in order,
whether the shutdown sequencer got registered (the `defer shutdown()` at
line 61, placed right after the /proc mount attempt), and whether the
sequence aborted boot. -/
structure BootMountResult where
  logged : List MountSite
  shutdownRegistered : Bool
  fatal : Bool
deriving DecidableEq

/-- The part_000 mount sequence (lines 55-80).  Each argument says whether
the corresponding call fails.  Every failure is handled by `log.Printf` and
the sequence continues; nothing aborts.  When `os.Mkdir("/sys", 0555)` fails
the sysfs mount is skipped (the `else if` at line 70). -/
def bootMounts (procFail devFail mkdirSysFail sysFail cgroupFail tmpFail : Bool) :
    BootMountResult :=
  { logged :=
      (if procFail then [MountSite.procM] else []) ++
      (if devFail then [MountSite.devM] else []) ++
      (if mkdirSysFail then [MountSite.mkdirSys]
       else if sysFail then [MountSite.sysM] else []) ++
      (if cgroupFail then [MountSite.cgroupM] else []) ++
      (if tmpFail then [MountSite.tmpM] else []),
    shutdownRegistered := true,
    fatal := false }

/-- Outcome of the earlier variant's single mount (src/main.go lines 44-46):
there the /proc mount failure is `log.Fatalf`, which stops boot before the
shutdown sequencer is registered. -/
inductive MainGoBoot where
  | fatalAtProcMount
  | proceeds
deriving DecidableEq

/-- The src/main.go /proc mount (lines 44-46). -/
def mainGoProcMount (procFail : Bool) : MainGoBoot :=
  if procFail then MainGoBoot.fatalAtProcMount else MainGoBoot.proceeds

/-! ### Zombie reaper racing the supervisor's wait
(part_000 lines 244-252 and 255-273) -/

/-- Joint state of the supervisor and the reaper around the workload child:
whether the child has exited, whether its exit status has been collected by
anyone, the pids the reaper has logged as reaped (line 269), and whether
`cmd.Wait()` (line 252) has observed the child's exit status. -/
structure ReapState where
  childExited : Bool
  childReaped : Bool
  reaperLog : List Nat
  supervisorObserved : Bool
deriving DecidableEq

/-- Interleaved steps of the two collectors.  `reaperCollect` is the reaper's
`syscall.Wait4(-1, &wstatus, syscall.WNOHANG, nil)` (line 260): the wildcard
`-1` ranges over every zombie child with no exclusion of `cmd.Process.Pid`,
so once the workload child is a zombie the call can return its pid, consuming
the status, after which line 269 logs the pid.  `supervisorCollect` is
`cmd.Wait()` (line 252) collecting the status, possible only while the status
is still unconsumed. -/
inductive ReapStep (wpid : Nat) : ReapState → ReapState → Prop where
  | childExit (s : ReapState) (h : s.childExited = false) :
      ReapStep wpid s { s with childExited := true }
  | reaperCollect (s : ReapState) (h1 : s.childExited = true) (h2 : s.childReaped = false) :
      ReapStep wpid s { s with childReaped := true, reaperLog := s.reaperLog ++ [wpid] }
  | supervisorCollect (s : ReapState) (h1 : s.childExited = true) (h2 : s.childReaped = false) :
      ReapStep wpid s { s with childReaped := true, supervisorObserved := true }

/-- Initial state: child running, nothing collected, nothing logged. -/
def ReapInit : ReapState := ⟨false, false, [], false⟩

/-- States reachable by interleaving the supervisor and the reaper. -/
def ReapReachable (wpid : Nat) (s : ReapState) : Prop :=
  Relation.ReflTransGen (ReapStep wpid) ReapInit s

/-! ### One-shot signal-forwarding goroutine (part_000 lines 229-242) -/

/-- The signal set registered with `signal.Notify` (part_000 line 234). -/
inductive Sig where
  | sigint
  | sigabrt
  | sigterm
deriving DecidableEq

/-- State of the signal relay: the signals delivered to the supervisor so
far, the one-slot buffered channel `sigs` (capacity 1, line 230), the signals
forwarded to the child via `cmd.Process.Signal` (line 241), and whether the
forwarding goroutine (lines 238-242) has returned. -/
structure SigState where
  received : List Sig
  buf : Option Sig
  forwarded : List Sig
  grDone : Bool
deriving DecidableEq

/-- Steps of the relay.  `deliver` is the runtime handing a registered signal
to `signal.Notify`, which does a non-blocking send on `sigs`: the signal
lands in the buffer slot if it is free and is dropped otherwise.  `forward`
is the body of the goroutine at lines 238-242: one receive `sig := <-sigs`,
one `cmd.Process.Signal(sig)`, and then the goroutine returns — there is no
loop, so `forward` requires the goroutine not to have run yet and marks it
done. -/
inductive SigStep : SigState → SigState → Prop where
  | deliver (s : SigState) (x : Sig) :
      SigStep s { s with
        received := s.received ++ [x],
        buf := match s.buf with | none => some x | some y => some y }
  | forward (s : SigState) (x : Sig) (hb : s.buf = some x) (hd : s.grDone = false) :
      SigStep s { s with buf := none, forwarded := s.forwarded ++ [x], grDone := true }

/-- Initial state after `cmd.Start()`: nothing delivered or forwarded, the
goroutine alive and blocked on its receive. -/
def SigInit : SigState := ⟨[], none, [], false⟩

/-- States of the relay reachable from the start of the supervised run. -/
def SigReachable (s : SigState) : Prop :=
  Relation.ReflTransGen SigStep SigInit s

/-! ## Helper lemmas -/

/-- Appending a binding for a different key does not change a lookup. -/
lemma envLookup_append_last (k' k v : String) (m : List (String × String)) (h : k' ≠ k) :
    envLookup k' (m ++ [(k, v)]) = envLookup k' m := by
  induction m with
  | nil => simp [envLookup, Ne.symm h]
  | cons kv rest ih => simp [envLookup, ih]

/-- Appending a binding for an absent key makes the lookup find it. -/
lemma envLookup_append_self (k v : String) (m : List (String × String))
    (h : envLookup k m = none) :
    envLookup k (m ++ [(k, v)]) = some v := by
  induction m with
  | nil => simp [envLookup]
  | cons kv rest ih =>
    simp only [envLookup, List.cons_append] at h ⊢
    by_cases hkv : kv.1 = k
    · rw [if_pos hkv] at h
      exact absurd h (by simp)
    · rw [if_neg hkv] at h ⊢
      exact ih h

/-- Relay invariant: until the forwarding goroutine has run nothing has been
forwarded, and in every reachable state at most one signal has been
forwarded. -/
lemma sig_relay_invariant (s : SigState) (h : SigReachable s) :
    (s.grDone = false → s.forwarded = []) ∧ s.forwarded.length ≤ 1 := by
  unfold SigReachable at h
  induction h with
  | refl => exact ⟨fun _ => rfl, by simp [SigInit]⟩
  | @tail b c hab hbc ih =>
    cases hbc with
    | deliver x => exact ih
    | forward x hb hd =>
      refine ⟨fun hcontra => absurd hcontra (by simp), ?_⟩
      show (b.forwarded ++ [x]).length ≤ 1
      rw [ih.1 hd]
      simp

/-! ## The claims -/

/-- C7: the shutdown sequencer issues the sync marker first and the power-off
marker second, never in the other order and never the power-off marker
without a preceding successful sync write; a failed write is fatal with no
further write attempted; when both writes succeed it blocks forever.  The
four conjuncts enumerate the whole input space of `shutdown`. -/
theorem shutdown_marker_order :
    shutdown false false = (["s\n"], ShutdownOutcome.fatalSync) ∧
    shutdown false true = (["s\n"], ShutdownOutcome.fatalSync) ∧
    shutdown true false = (["s\n", "o\n"], ShutdownOutcome.fatalPoweroff) ∧
    shutdown true true = (["s\n", "o\n"], ShutdownOutcome.blockForever) :=
  ⟨rfl, rfl, rfl, rfl⟩

/-- C6 counterexample: in the feature-complete variant's mount sequence
(part_000 lines 55-80) a failure of the first mount, /proc, is logged and
boot continues — it is not fatal and does not stop boot, contrary to the
claim. -/
theorem proc_mount_failure_not_fatal :
    (bootMounts true false false false false false).fatal = false ∧
    (bootMounts true false false false false false).logged = [MountSite.procM] ∧
    (bootMounts true false false false false false).shutdownRegistered = true := by
  decide

/-- C6 amended: in the feature-complete variant every individual mount
failure (including /proc) is logged and the sequence continues, never
aborting, with the shutdown sequencer registered right after the /proc
attempt; only the earlier variant src/main.go treats the /proc mount failure
as fatal. -/
theorem mount_failures_logged_and_continue :
    ∀ procFail devFail mkdirSysFail sysFail cgroupFail tmpFail : Bool,
      (bootMounts procFail devFail mkdirSysFail sysFail cgroupFail tmpFail).fatal = false ∧
      (bootMounts procFail devFail mkdirSysFail sysFail cgroupFail tmpFail).shutdownRegistered
        = true ∧
      ((bootMounts procFail devFail mkdirSysFail sysFail cgroupFail tmpFail).logged.contains
        MountSite.procM) = procFail ∧
      ((bootMounts procFail devFail mkdirSysFail sysFail cgroupFail tmpFail).logged.contains
        MountSite.devM) = devFail ∧
      ((bootMounts procFail devFail mkdirSysFail sysFail cgroupFail tmpFail).logged.contains
        MountSite.mkdirSys) = mkdirSysFail ∧
      ((bootMounts procFail devFail mkdirSysFail sysFail cgroupFail tmpFail).logged.contains
        MountSite.sysM) = (!mkdirSysFail && sysFail) ∧
      ((bootMounts procFail devFail mkdirSysFail sysFail cgroupFail tmpFail).logged.contains
        MountSite.cgroupM) = cgroupFail ∧
      ((bootMounts procFail devFail mkdirSysFail sysFail cgroupFail tmpFail).logged.contains
        MountSite.tmpM) = tmpFail ∧
      mainGoProcMount true = MainGoBoot.fatalAtProcMount ∧
      mainGoProcMount false = MainGoBoot.proceeds := by
  decide

/-- C9: after loading, the environment always has a PATH entry — the
original value when the input had one, the fixed default otherwise — and
every other entry is preserved unchanged. -/
theorem path_defaulting (environment : Option (List (String × String))) :
    envLookup "PATH" (ensurePath environment) =
      some ((envLookup "PATH" (environment.getD [])).getD defaultPath) ∧
    ∀ k, k ≠ "PATH" →
      envLookup k (ensurePath environment) = envLookup k (environment.getD []) := by
  constructor
  · cases h : envLookup "PATH" (environment.getD []) with
    | some v => simp [ensurePath, h]
    | none => simp [ensurePath, h, envLookup_append_self _ _ _ h]
  · intro k hk
    cases h : envLookup "PATH" (environment.getD []) with
    | some v => simp [ensurePath, h]
    | none => simp [ensurePath, h, envLookup_append_last _ _ _ _ hk]

/-- C5: when both lexical splits succeed, the resolved argument vector is the
split of `entrypoint.command` followed by the split of `cmd`, in that order,
an empty string contributing no tokens (so with empty `cmd` the vector is the
entrypoint split alone). -/
theorem argv_is_split_concat (split : String → Except String (List String))
    (epCommand cmdStr : String) (l1 l2 : List String)
    (hempty : split "" = Except.ok ([] : List String))
    (h1 : split epCommand = Except.ok l1) (h2 : split cmdStr = Except.ok l2) :
    resolveArgs split epCommand cmdStr = Except.ok (l1 ++ l2) := by
  by_cases he : epCommand = ""
  · have hl1 : l1 = [] := by
      rw [he, hempty] at h1
      exact (Except.ok.inj h1).symm
    by_cases hc : cmdStr = ""
    · have hl2 : l2 = [] := by
        rw [hc, hempty] at h2
        exact (Except.ok.inj h2).symm
      simp [resolveArgs, he, hc, hl1, hl2]
    · simp [resolveArgs, he, hc, h2, hl1]
  · by_cases hc : cmdStr = ""
    · have hl2 : l2 = [] := by
        rw [hc, hempty] at h2
        exact (Except.ok.inj h2).symm
      simp [resolveArgs, he, hc, h1, hl2]
    · simp [resolveArgs, he, hc, h1, h2]

/-- C5 witness: with a concrete splitter, a non-empty entrypoint and an empty
cmd resolve to the entrypoint's tokens alone. -/
theorem argv_is_split_concat_witness :
    resolveArgs demoSplit "/bin/true" "" = Except.ok ["/bin/true"] :=
  argv_is_split_concat demoSplit "/bin/true" "" ["/bin/true"] [] rfl rfl rfl

/-- C8: an empty resolved argument vector or a lexical-split error makes the
launcher fail fatally (the index panic at `args[0]`, or the `log.Panicf` on
the split error) and no workload process is started; an empty entrypoint with
an empty cmd yields the empty vector. -/
theorem empty_or_unlexable_is_fatal (split : String → Except String (List String))
    (epCommand cmdStr : String) :
    (resolveArgs split epCommand cmdStr = Except.ok ([] : List String) →
      launchWorkload split epCommand cmdStr = LaunchResult.emptyArgsPanic ∧
      ∀ argv, launchWorkload split epCommand cmdStr ≠ LaunchResult.started argv) ∧
    (∀ e, resolveArgs split epCommand cmdStr = Except.error e →
      launchWorkload split epCommand cmdStr = LaunchResult.splitPanic ∧
      ∀ argv, launchWorkload split epCommand cmdStr ≠ LaunchResult.started argv) ∧
    (epCommand = "" → cmdStr = "" →
      resolveArgs split epCommand cmdStr = Except.ok ([] : List String)) := by
  refine ⟨?_, ?_, ?_⟩
  · intro h
    exact ⟨by simp [launchWorkload, h], fun argv => by simp [launchWorkload, h]⟩
  · intro e h
    exact ⟨by simp [launchWorkload, h], fun argv => by simp [launchWorkload, h]⟩
  · intro he hc
    simp [resolveArgs, he, hc]

/-- C8 witness: with a concrete splitter and both strings empty, the resolved
vector is empty and the launcher hits the empty-argument panic. -/
theorem empty_or_unlexable_is_fatal_witness :
    launchWorkload demoSplit "" "" = LaunchResult.emptyArgsPanic :=
  ((empty_or_unlexable_is_fatal demoSplit "" "").1 rfl).1

/-- C4 counterexample: with `accounts.users` holding the single record
`{username := "admin", uid := 0, gid := 100}` and `runAs := "admin"`, the
record matches, yet resolution is a fatal abort (the uid stayed 0, so the
code re-parses "admin" as a decimal integer and fails) instead of the claimed
identity uid 0 / gid 100. -/
theorem run_as_match_uid_zero_aborts :
    List.find? (runAsPred "admin") [(⟨"admin", 0, 100⟩ : User)] = some ⟨"admin", 0, 100⟩ ∧
    resolveIdentity ⟨"admin", [⟨"admin", 0, 100⟩]⟩ = none := by
  decide

/-- C4 amended: the resolved identity equals the reference resolution with
one change — on a match whose uid is 0, when `runAs` is not the literal
"root" the code re-parses `runAs` as a decimal integer and uses that as uid
(keeping the matched gid), with parse failure a fatal abort; the empty,
no-match and non-zero-uid-match branches are as the claim states. -/
theorem run_as_resolution_amended :
    ∀ a : ImageAccounts, resolveIdentity a = resolveIdentityAmendedSpec a := by
  intro a
  unfold resolveIdentity resolveIdentityAmendedSpec
  by_cases h0 : a.runAs = ""
  · simp [h0]
  · simp only [if_neg h0]
    cases hf : a.users.find? (runAsPred a.runAs) with
    | none =>
      by_cases hr : a.runAs = "root"
      · simp [hr]
      · simp [hr]
    | some u =>
      by_cases hu : u.uid = 0
      · by_cases hr : a.runAs = "root"
        · simp [hu, hr]
        · simp [hu, hr]
      · simp [hu]

/-- C10: a `runAs` that matches no user record, is not "root" and parses as a
negative integer does not abort the launcher: the resolved uid is that
integer with gid 0, and the credential installed on the child carries the uid
reduced modulo 2^32. -/
theorem negative_run_as_wraps (a : ImageAccounts) (n : Int)
    (hfind : a.users.find? (runAsPred a.runAs) = none)
    (hroot : a.runAs ≠ "root")
    (hparse : atoi a.runAs = some n)
    (_hneg : n < 0) :
    resolveIdentity a = some (n, 0) ∧
    mkCredential (n, 0) = ((n % 4294967296).toNat, 0) := by
  have hne : a.runAs ≠ "" := by
    intro h
    rw [h] at hparse
    have hnil : atoi "" = none := by decide
    rw [hparse] at hnil
    exact Option.noConfusion hnil
  constructor
  · simp [resolveIdentity, hne, hfind, hroot, hparse]
  · simp [mkCredential]

/-- C10 witness: `runAs := "-1"` with no user records resolves without abort
to uid -1, and the child credential uid is 4294967295 with gid 0. -/
theorem negative_run_as_wraps_witness :
    resolveIdentity ⟨"-1", []⟩ = some (-1, 0) ∧
    mkCredential (-1, 0) = (4294967295, 0) :=
  negative_run_as_wraps ⟨"-1", []⟩ (-1) rfl (by decide) (by decide) (by decide)

/-- C3: when the configuration file read fails, the code logs and leaves the
byte slice nil, but then hands that nil slice to the JSON decoder, which
rejects empty input — so boot aborts fatally at unmarshal time, for any
decoder that rejects the empty document; it never reaches the zero-value
configuration or the later launch. -/
theorem read_failure_panics_at_unmarshal (parse : String → Option ImageConfiguration)
    (hparse : parse "" = none) :
    loadConfig parse none = LoadOutcome.panicAtMarshal := by
  simp [loadConfig, hparse]

/-- C3 witness: a decoder rejecting the empty document makes a failed read
end in the unmarshal panic. -/
theorem read_failure_panics_at_unmarshal_witness :
    loadConfig (fun _ => none) none = LoadOutcome.panicAtMarshal :=
  read_failure_panics_at_unmarshal (fun _ => none) rfl

/-- C2: the forwarding goroutine performs a single receive and a single
signal send before returning, so over every interleaving at most one signal
is ever forwarded to the child — refuting the claim that each received
signal of a longer sequence is forwarded exactly once. -/
theorem signals_forwarded_at_most_once (s : SigState) (h : SigReachable s) :
    s.forwarded.length ≤ 1 :=
  (sig_relay_invariant s h).2

/-- C2 witness: a reachable state in which two termination signals were
received but only the first was forwarded, the goroutine having returned. -/
theorem signals_forwarded_at_most_once_witness :
    (SigState.mk [Sig.sigterm, Sig.sigterm] (some Sig.sigterm) [Sig.sigterm]
      true).forwarded.length ≤ 1 :=
  signals_forwarded_at_most_once _ (by
    have s1 : SigStep SigInit ⟨[Sig.sigterm], some Sig.sigterm, [], false⟩ :=
      SigStep.deliver SigInit Sig.sigterm
    have s2 : SigStep ⟨[Sig.sigterm], some Sig.sigterm, [], false⟩
        ⟨[Sig.sigterm], none, [Sig.sigterm], true⟩ :=
      SigStep.forward _ Sig.sigterm rfl rfl
    have s3 : SigStep ⟨[Sig.sigterm], none, [Sig.sigterm], true⟩
        ⟨[Sig.sigterm, Sig.sigterm], some Sig.sigterm, [Sig.sigterm], true⟩ :=
      SigStep.deliver _ Sig.sigterm
    exact Relation.ReflTransGen.tail
      (Relation.ReflTransGen.tail (Relation.ReflTransGen.tail Relation.ReflTransGen.refl s1) s2)
      s3)

/-- C1: because the reaper's wildcard collection excludes nothing, there is a
reachable interleaving in which the reaper collects and logs the workload
child's pid while the supervisor's wait has not observed the exit status —
refuting the claim that this never happens. -/
theorem reaper_can_log_workload_before_wait :
    ∀ wpid : Nat, ∃ s : ReapState,
      ReapReachable wpid s ∧ wpid ∈ s.reaperLog ∧ s.supervisorObserved = false := by
  intro wpid
  refine ⟨⟨true, true, [wpid], false⟩, ?_, by simp, rfl⟩
  have s1 : ReapStep wpid ReapInit ⟨true, false, [], false⟩ :=
    ReapStep.childExit ReapInit rfl
  have s2 : ReapStep wpid ⟨true, false, [], false⟩ ⟨true, true, [wpid], false⟩ :=
    ReapStep.reaperCollect ⟨true, false, [], false⟩ rfl rfl
  exact Relation.ReflTransGen.tail
    (Relation.ReflTransGen.tail Relation.ReflTransGen.refl s1) s2

end Wolfinit
